import Mathlib

/-!
Shallow embedding of the titan-swap-api-client core (src/lib.rs, src/quote.rs,
src/swap.rs): the quote/swap transcoding pipeline of a swap-quote aggregation
client.  Machine integers (u8/u16/u32/u64/usize) are embedded as `Nat`; the one
place the source narrows a wider integer (`as u32` in `swap`) is embedded as an
explicit `% 2 ^ 32`.  The external `solana_sdk::pubkey::Pubkey` is embedded as a
wrapper around its 32 raw bytes (`Pubkey::from` is the identity on bytes,
`Pubkey::default` is the all-zero address); its base58 `Display` rendering is
abstracted as an injective rendering of the byte list, which is all the query
encoder relies on.  `f64` timing arithmetic is embedded as exact rational
arithmetic.  The decoded `HashMap<String, SwapRoute>` is embedded as an
association list in iteration order, matching `into_values().next()` selecting
the first value of the iteration.  Fallible operations return `Except`.
-/

namespace Titan

/-- `MsgpackPubkey = [u8; 32]`: a raw 32-byte address as it appears on the
binary wire (quote.rs). Length is not re-enforced by the type; no claim
depends on it. -/
abbrev Bytes32 := List Nat

/-- `solana_sdk::pubkey::Pubkey`, embedded as its 32 raw bytes. -/
structure Pubkey where
  bytes : Bytes32
  deriving DecidableEq

/-- `Pubkey::default()`: the all-zeros (zero) address. -/
def Pubkey.zero : Pubkey := ⟨List.replicate 32 0⟩

/-- `pubkey_from_bytes` (lib.rs): `Pubkey::from(*bytes)`, the identity on the
raw bytes. -/
def pubkey_from_bytes (bytes : Bytes32) : Pubkey := ⟨bytes⟩

/-- Abstraction of `Pubkey`'s `Display` (base58) used by `to_string()`:
any concrete injective rendering of the bytes serves the query encoder. -/
def pubkeyToString (pk : Pubkey) : String := toString pk.bytes

/-- `SwapMode` (quote.rs): enumeration `{ExactIn, ExactOut}`, default
`ExactIn` (the `#[default]` variant). -/
inductive SwapMode where
  | ExactIn
  | ExactOut
  deriving DecidableEq

/-- `SwapMode::from_str` (quote.rs): accepts exactly "ExactIn" and
"ExactOut"; anything else is `Err(anyhow!("{} is not a valid SwapMode", s))`. -/
def SwapMode.fromStr (s : String) : Except String SwapMode :=
  if s = "ExactIn" then Except.ok SwapMode.ExactIn
  else if s = "ExactOut" then Except.ok SwapMode.ExactOut
  else Except.error (s ++ " is not a valid SwapMode")

/-- The rendering of a `SwapMode` to its textual token, as in the `match` of
`build_query_params` (lib.rs lines 152-155). -/
def swapModeToString : SwapMode → String
  | SwapMode.ExactIn => "ExactIn"
  | SwapMode.ExactOut => "ExactOut"

/-- `PlatformFeeData` (quote.rs): decoded platform fee record. -/
structure PlatformFeeData where
  amount : Nat
  fee_bps : Nat
  deriving DecidableEq

/-- `PlatformFee` (quote.rs): public platform fee. -/
structure PlatformFee where
  amount : Nat
  fee_bps : Nat
  deriving DecidableEq

/-- `AccountMetaData` (quote.rs): decoded account entry of a low-level
instruction — raw 32-byte address `p`, signer flag `s`, writable flag `w`. -/
structure AccountMetaData where
  p : Bytes32
  s : Bool
  w : Bool
  deriving DecidableEq

/-- `InstructionData` (quote.rs): decoded low-level instruction — raw
32-byte program `p`, account entries `a`, opaque data bytes `d`. -/
structure InstructionData where
  p : Bytes32
  a : List AccountMetaData
  d : List Nat
  deriving DecidableEq

/-- `RoutePlanStepData` (quote.rs): one decoded route step. -/
structure RoutePlanStepData where
  amm_key : Bytes32
  label : String
  input_mint : Bytes32
  output_mint : Bytes32
  in_amount : Nat
  out_amount : Nat
  alloc_ppb : Nat
  fee_mint : Option Bytes32
  fee_amount : Option Nat
  context_slot : Option Nat
  deriving DecidableEq

/-- `SwapRoute` (quote.rs): one decoded route for a quote id. -/
structure SwapRoute where
  in_amount : Nat
  out_amount : Nat
  slippage_bps : Nat
  platform_fee : Option PlatformFeeData
  steps : List RoutePlanStepData
  instructions : List InstructionData
  address_lookup_tables : List Bytes32
  context_slot : Option Nat
  time_taken_ns : Option Nat
  expires_at_ms : Option Nat
  expires_after_slot : Option Nat
  compute_units : Option Nat
  compute_units_safe : Option Nat
  transaction : Option (List Nat)
  reference_id : Option String
  deriving DecidableEq

/-- `SwapQuotes` (quote.rs): the decoded response. The
`HashMap<String, SwapRoute>` is embedded as an association list in iteration
order, so `into_values().next()` is the second component of the head. -/
structure SwapQuotes where
  id : String
  input_mint : Bytes32
  output_mint : Bytes32
  swap_mode : SwapMode
  amount : Nat
  quotes : List (String × SwapRoute)
  deriving DecidableEq

/-- `SwapInfo` (quote.rs): transcoded step content of the public quote. -/
structure SwapInfo where
  amm_key : Pubkey
  label : String
  input_mint : Pubkey
  output_mint : Pubkey
  in_amount : Nat
  out_amount : Nat
  alloc_ppb : Nat
  fee_mint : Pubkey
  fee_amount : Nat
  context_slot : Nat
  deriving DecidableEq

/-- `RoutePlanStep` (quote.rs): transcoded route-plan entry. -/
structure RoutePlanStep where
  swap_info : SwapInfo
  percent : Nat
  deriving DecidableEq

/-- `QuoteRequest` (quote.rs): the structured request.  The `providers`
field is read by `build_query_params` (lib.rs line 175). -/
structure QuoteRequest where
  input_mint : Pubkey
  output_mint : Pubkey
  amount : Nat
  user_pubkey : Pubkey
  max_accounts : Option Nat
  swap_mode : Option SwapMode
  slippage_bps : Nat
  only_direct_routes : Option Bool
  excluded_dexes : Option String
  size_constraints : Option Nat
  accounts_limit_writable : Option Nat
  providers : Option String
  deriving DecidableEq

/-- `QuoteResponse` (quote.rs), with exactly the fields `TitanClient::quote`
constructs (lib.rs lines 77-92), including the retained `raw_route`.
`time_taken` is an `f64` in the source; it is embedded as an exact rational. -/
structure QuoteResponse where
  input_mint : Pubkey
  in_amount : Nat
  output_mint : Pubkey
  out_amount : Nat
  swap_mode : SwapMode
  slippage_bps : Nat
  platform_fee : Option PlatformFee
  raw_route : SwapRoute
  route_plan : List RoutePlanStep
  context_slot : Option Nat
  time_taken : Option ℚ

/-- `solana_sdk::instruction::AccountMeta` (external terminal output). -/
structure AccountMeta where
  pubkey : Pubkey
  is_signer : Bool
  is_writable : Bool
  deriving DecidableEq

/-- `solana_sdk::instruction::Instruction` (external terminal output). -/
structure Instruction where
  program_id : Pubkey
  accounts : List AccountMeta
  data : List Nat
  deriving DecidableEq

/-- `SwapResponse` (swap.rs), with exactly the fields `TitanClient::swap`
constructs (lib.rs lines 126-134); the declared `transaction` field has no
corresponding assignment there and is omitted. `compute_unit_limit` is a
`u32` in the source, embedded as a `Nat` kept below `2 ^ 32` by the
constructor. -/
structure SwapResponse where
  instructions : List Instruction
  address_lookup_table_addresses : List Pubkey
  compute_unit_limit : Nat
  compute_units_safe : Option Nat
  context_slot : Option Nat
  expires_at_ms : Option Nat
  expires_after_slot : Option Nat
  deriving DecidableEq

/-- `ClientError` (lib.rs). The payloads of the transport and decode
variants are external error values, abstracted away. -/
inductive ClientError where
  | RequestFailed (status : Nat) (body : String)
  | HttpError
  | NoRoutesAvailable
  | MsgpackError
  deriving DecidableEq

/-- `transform_step` (lib.rs lines 182-204): transcode one decoded step into
a route-plan entry; `percent` is the literal 100, `fee_mint` defaults to
`Pubkey::default()` (`map_or_else`), `fee_amount` to 0, `context_slot` to the
supplied route-level default. -/
def transform_step (step : RoutePlanStepData) (default_context_slot : Nat) :
    RoutePlanStep :=
  { swap_info :=
      { amm_key := pubkey_from_bytes step.amm_key
        label := step.label
        input_mint := pubkey_from_bytes step.input_mint
        output_mint := pubkey_from_bytes step.output_mint
        in_amount := step.in_amount
        out_amount := step.out_amount
        alloc_ppb := step.alloc_ppb
        fee_mint :=
          match step.fee_mint with
          | some bytes => pubkey_from_bytes bytes
          | none => Pubkey.zero
        fee_amount := step.fee_amount.getD 0
        context_slot := step.context_slot.getD default_context_slot }
    percent := 100 }

/-- `TitanClient::quote` (lib.rs lines 60-93) after the transport/decode
stage: given the decoded `SwapQuotes`, select the first route of the map's
iteration order (`into_values().next()`), or fail with `NoRoutesAvailable`;
transcode the steps and build the `QuoteResponse`.  `unwrap_or_default()` on
the request's swap mode yields `ExactIn`.  `ns as f64 / 1e9` is embedded as
exact rational division by 10^9. -/
def quote (request : QuoteRequest) (quotes : SwapQuotes) :
    Except ClientError QuoteResponse :=
  match quotes.quotes with
  | [] => Except.error ClientError.NoRoutesAvailable
  | (_, route) :: _ =>
    let context_slot := route.context_slot.getD 0
    let route_plan := route.steps.map (fun step => transform_step step context_slot)
    Except.ok
      { input_mint := request.input_mint
        in_amount := request.amount
        output_mint := request.output_mint
        out_amount := route.out_amount
        swap_mode := request.swap_mode.getD SwapMode.ExactIn
        slippage_bps := route.slippage_bps
        platform_fee := route.platform_fee.map
          (fun pf => { amount := pf.amount, fee_bps := pf.fee_bps })
        raw_route := route
        route_plan := route_plan
        context_slot := route.context_slot
        time_taken := route.time_taken_ns.map (fun ns => (ns : ℚ) / 1000000000) }

/-- `TitanClient::swap` (lib.rs lines 95-135): fail with `NoRoutesAvailable`
when the retained route has no instructions; otherwise resolve every
instruction and lookup-table address from its 32-byte form.
`route.compute_units.unwrap_or(0) as u32` is embedded as `% 2 ^ 32` (the
`as u32` cast truncates). -/
def swap (quoteResponse : QuoteResponse) : Except ClientError SwapResponse :=
  let route := quoteResponse.raw_route
  if route.instructions.isEmpty then
    Except.error ClientError.NoRoutesAvailable
  else
    Except.ok
      { instructions := route.instructions.map (fun inst =>
          { program_id := pubkey_from_bytes inst.p
            accounts := inst.a.map (fun meta =>
              { pubkey := pubkey_from_bytes meta.p
                is_signer := meta.s
                is_writable := meta.w })
            data := inst.d })
        address_lookup_table_addresses :=
          route.address_lookup_tables.map pubkey_from_bytes
        compute_unit_limit := route.compute_units.getD 0 % 2 ^ 32
        compute_units_safe := route.compute_units_safe
        context_slot := route.context_slot
        expires_at_ms := route.expires_at_ms
        expires_after_slot := route.expires_after_slot }

/-- `build_query_params` (lib.rs lines 138-180): the four required
parameters first, then each optional parameter pushed in source order when
present (slippage only when `> 0`). -/
def build_query_params (request : QuoteRequest) : List (String × String) :=
  let params := [("inputMint", pubkeyToString request.input_mint),
                 ("outputMint", pubkeyToString request.output_mint),
                 ("amount", toString request.amount),
                 ("userPublicKey", pubkeyToString request.user_pubkey)]
  let params :=
    match request.max_accounts with
    | some max_accounts => params ++ [("accountsLimitTotal", toString max_accounts)]
    | none => params
  let params :=
    match request.swap_mode with
    | some swap_mode => params ++ [("swapMode", swapModeToString swap_mode)]
    | none => params
  let params :=
    if request.slippage_bps > 0 then
      params ++ [("slippageBps", toString request.slippage_bps)]
    else params
  let params :=
    match request.only_direct_routes with
    | some only_direct_routes =>
        params ++ [("onlyDirectRoutes", toString only_direct_routes)]
    | none => params
  let params :=
    match request.excluded_dexes with
    | some excluded_dexes => params ++ [("excludeDexes", excluded_dexes)]
    | none => params
  let params :=
    match request.size_constraints with
    | some size_constraints => params ++ [("sizeConstraint", toString size_constraints)]
    | none => params
  let params :=
    match request.accounts_limit_writable with
    | some accounts_limit_writable =>
        params ++ [("accountsLimitWritable", toString accounts_limit_writable)]
    | none => params
  let params :=
    match request.providers with
    | some providers => params ++ [("providers", providers)]
    | none => params
  params

/-- A transport response as the façade observes it: status code and body
text (the body is what `response.text()` yields, defaulting to empty). -/
structure HttpResponse where
  status : Nat
  body : String
  deriving DecidableEq

/-- `reqwest::StatusCode::is_success` (external): status in 200..=299. -/
def statusIsSuccess (status : Nat) : Bool :=
  200 ≤ status && status < 300

/-- Whether `sub` starts the character list `s` (helper for `str::contains`). -/
def charsStartWith : List Char → List Char → Bool
  | [], _ => true
  | _ :: _, [] => false
  | c :: cs, d :: ds => c == d && charsStartWith cs ds

/-- Whether `sub` occurs inside `s` (helper for `str::contains`). -/
def charsContain (sub : List Char) : List Char → Bool
  | [] => charsStartWith sub []
  | c :: cs => charsStartWith sub (c :: cs) || charsContain sub cs

/-- Rust `str::contains` with a string pattern: substring containment. -/
def strContains (s pat : String) : Bool :=
  charsContain pat.data s.data

/-- `check_response` (lib.rs lines 206-219): 2xx passes through; 404 with a
body containing "No routes" is `NoRoutesAvailable`; every other non-2xx is
`RequestFailed` with the status and body. -/
def check_response (response : HttpResponse) : Except ClientError HttpResponse :=
  if statusIsSuccess response.status then
    Except.ok response
  else if response.status == 404 && strContains response.body "No routes" then
    Except.error ClientError.NoRoutesAvailable
  else
    Except.error (ClientError.RequestFailed response.status response.body)

/-! Concrete sample values used by the witnesses. -/

/-- A concrete decoded account entry. -/
def sampleAccountEntry : AccountMetaData :=
  { p := List.replicate 31 0 ++ [1], s := true, w := false }

/-- A concrete decoded low-level instruction with one account entry. -/
def sampleInstructionRecord : InstructionData :=
  { p := List.replicate 31 0 ++ [2], a := [sampleAccountEntry], d := [9, 8, 7] }

/-- A concrete decoded route step carrying no fee and no context slot. -/
def sampleStep : RoutePlanStepData :=
  { amm_key := List.replicate 31 0 ++ [3]
    label := "orca"
    input_mint := List.replicate 31 0 ++ [4]
    output_mint := List.replicate 31 0 ++ [5]
    in_amount := 100000000
    out_amount := 99000000
    alloc_ppb := 500000000
    fee_mint := none
    fee_amount := none
    context_slot := none }

/-- A concrete decoded route with one step, one instruction and one
lookup table. -/
def sampleRoute : SwapRoute :=
  { in_amount := 100000000
    out_amount := 99000000
    slippage_bps := 50
    platform_fee := none
    steps := [sampleStep]
    instructions := [sampleInstructionRecord]
    address_lookup_tables := [List.replicate 31 0 ++ [6]]
    context_slot := some 7
    time_taken_ns := some 2500000000
    expires_at_ms := none
    expires_after_slot := none
    compute_units := some 200000
    compute_units_safe := none
    transaction := none
    reference_id := none }

/-- A concrete decoded response with exactly one route. -/
def sampleQuotes : SwapQuotes :=
  { id := "q1"
    input_mint := List.replicate 31 0 ++ [4]
    output_mint := List.replicate 31 0 ++ [5]
    swap_mode := SwapMode.ExactIn
    amount := 100000000
    quotes := [("r1", sampleRoute)] }

/-- The same route map as `sampleQuotes` under different top-level decoded
fields. -/
def sampleQuotesAltTop : SwapQuotes :=
  { id := "other"
    input_mint := List.replicate 32 9
    output_mint := List.replicate 32 8
    swap_mode := SwapMode.ExactOut
    amount := 55
    quotes := [("r1", sampleRoute)] }

/-- A concrete request. -/
def sampleRequest : QuoteRequest :=
  { input_mint := ⟨List.replicate 31 0 ++ [4]⟩
    output_mint := ⟨List.replicate 31 0 ++ [5]⟩
    amount := 100000000
    user_pubkey := ⟨List.replicate 31 0 ++ [10]⟩
    max_accounts := none
    swap_mode := none
    slippage_bps := 50
    only_direct_routes := none
    excluded_dexes := none
    size_constraints := none
    accounts_limit_writable := none
    providers := none }

/-- A concrete quote response retaining `sampleRoute`. -/
def sampleQuoteResponse : QuoteResponse :=
  { input_mint := ⟨List.replicate 31 0 ++ [4]⟩
    in_amount := 100000000
    output_mint := ⟨List.replicate 31 0 ++ [5]⟩
    out_amount := 99000000
    swap_mode := SwapMode.ExactIn
    slippage_bps := 50
    platform_fee := none
    raw_route := sampleRoute
    route_plan := []
    context_slot := some 7
    time_taken := none }

/-- `sampleRoute` with a compute-unit estimate of exactly `2 ^ 32`. -/
def overflowRoute : SwapRoute :=
  { sampleRoute with compute_units := some 4294967296 }

/-- A quote response retaining `overflowRoute`. -/
def overflowQuoteResponse : QuoteResponse :=
  { sampleQuoteResponse with raw_route := overflowRoute }

/-- Helper: on a quote whose retained route has instructions, `swap`
succeeds and its result is the element-wise resolution of the route. -/
theorem swap_ok_eq (q : QuoteResponse)
    (h : q.raw_route.instructions.isEmpty = false) :
    swap q = Except.ok
      { instructions := q.raw_route.instructions.map (fun inst =>
          { program_id := pubkey_from_bytes inst.p
            accounts := inst.a.map (fun meta =>
              { pubkey := pubkey_from_bytes meta.p
                is_signer := meta.s
                is_writable := meta.w })
            data := inst.d })
        address_lookup_table_addresses :=
          q.raw_route.address_lookup_tables.map pubkey_from_bytes
        compute_unit_limit := q.raw_route.compute_units.getD 0 % 2 ^ 32
        compute_units_safe := q.raw_route.compute_units_safe
        context_slot := q.raw_route.context_slot
        expires_at_ms := q.raw_route.expires_at_ms
        expires_after_slot := q.raw_route.expires_after_slot } := by
  unfold swap
  simp [h]

/-- Claim C2: when the decoded route map is non-empty, `quote` returns a
`QuoteResponse` whose `raw_route` is the selected decoded route itself,
every field unmodified. -/
theorem quote_retains_raw_route (request : QuoteRequest) (quotes : SwapQuotes)
    (key : String) (route : SwapRoute) (rest : List (String × SwapRoute))
    (h : quotes.quotes = (key, route) :: rest) :
    ∃ resp, quote request quotes = Except.ok resp ∧ resp.raw_route = route := by
  unfold quote
  rw [h]
  exact ⟨_, rfl, rfl⟩

/-- Witness for C2 at the concrete one-route decoded response. -/
theorem quote_retains_raw_route_witness :
    sampleQuotes.quotes = ("r1", sampleRoute) :: [] ∧
    ∃ resp, quote sampleRequest sampleQuotes = Except.ok resp ∧
      resp.raw_route = sampleRoute :=
  ⟨rfl, quote_retains_raw_route sampleRequest sampleQuotes "r1" sampleRoute [] rfl⟩

/-- Claim C3: `quote` fails with `NoRoutesAvailable` exactly when the
decoded route map is empty, otherwise it proceeds with the first route of
the iteration order; `swap` fails with `NoRoutesAvailable` exactly when the
retained route's instruction list is empty (and then produces no
`SwapResponse` at all). -/
theorem no_routes_characterization (request : QuoteRequest)
    (quotes : SwapQuotes) (q : QuoteResponse) :
    (quote request quotes = Except.error ClientError.NoRoutesAvailable ↔
      quotes.quotes = []) ∧
    (∀ p rest, quotes.quotes = p :: rest →
      ∃ resp, quote request quotes = Except.ok resp ∧ resp.raw_route = p.2) ∧
    (swap q = Except.error ClientError.NoRoutesAvailable ↔
      q.raw_route.instructions = []) := by
  refine ⟨?_, ?_, ?_⟩
  · unfold quote
    cases hq : quotes.quotes with
    | nil => simp
    | cons p rest =>
      obtain ⟨k, route⟩ := p
      simp
  · intro p rest h
    obtain ⟨k, route⟩ := p
    unfold quote
    rw [h]
    exact ⟨_, rfl, rfl⟩
  · unfold swap
    cases hi : q.raw_route.instructions with
    | nil => simp [hi]
    | cons inst tl => simp [hi]

/-- Witness for C3 at concrete inputs. -/
theorem no_routes_characterization_witness :
    (quote sampleRequest sampleQuotes =
        Except.error ClientError.NoRoutesAvailable ↔ sampleQuotes.quotes = []) ∧
    (∀ p rest, sampleQuotes.quotes = p :: rest →
      ∃ resp, quote sampleRequest sampleQuotes = Except.ok resp ∧
        resp.raw_route = p.2) ∧
    (swap sampleQuoteResponse = Except.error ClientError.NoRoutesAvailable ↔
      sampleQuoteResponse.raw_route.instructions = []) :=
  no_routes_characterization sampleRequest sampleQuotes sampleQuoteResponse

/-- Claim C9: when the selected route carries `time_taken_ns`, the quote's
`time_taken` is that value divided by 10^9 (nanoseconds to fractional
seconds); 2500000000 nanoseconds yield 5/2 seconds; an absent
`time_taken_ns` yields an absent `time_taken`. -/
theorem quote_time_taken_conversion (request : QuoteRequest)
    (quotes : SwapQuotes) (p : String × SwapRoute)
    (rest : List (String × SwapRoute)) (h : quotes.quotes = p :: rest) :
    ∃ resp, quote request quotes = Except.ok resp ∧
      (∀ ns, p.2.time_taken_ns = some ns →
        resp.time_taken = some ((ns : ℚ) / 1000000000)) ∧
      (p.2.time_taken_ns = none → resp.time_taken = none) ∧
      (p.2.time_taken_ns = some 2500000000 → resp.time_taken = some (5 / 2)) := by
  obtain ⟨k, route⟩ := p
  unfold quote
  rw [h]
  refine ⟨_, rfl, ?_, ?_, ?_⟩
  · intro ns hns
    have h2 : route.time_taken_ns = some ns := hns
    simp [h2]
  · intro hns
    have h2 : route.time_taken_ns = none := hns
    simp [h2]
  · intro hns
    have h2 : route.time_taken_ns = some 2500000000 := hns
    simp only [h2, Option.map_some]
    norm_num

/-- Witness for C9: the sample route carries `time_taken_ns = 2500000000`. -/
theorem quote_time_taken_conversion_witness :
    sampleQuotes.quotes = ("r1", sampleRoute) :: [] ∧
    ∃ resp, quote sampleRequest sampleQuotes = Except.ok resp ∧
      (∀ ns, ("r1", sampleRoute).2.time_taken_ns = some ns →
        resp.time_taken = some ((ns : ℚ) / 1000000000)) ∧
      (("r1", sampleRoute).2.time_taken_ns = none → resp.time_taken = none) ∧
      (("r1", sampleRoute).2.time_taken_ns = some 2500000000 →
        resp.time_taken = some (5 / 2)) :=
  ⟨rfl, quote_time_taken_conversion sampleRequest sampleQuotes
    ("r1", sampleRoute) [] rfl⟩

/-- Claim C10: `quote` takes `input_mint`, `output_mint`, `in_amount` and
`swap_mode` from the request (`swap_mode` defaulting to `ExactIn` when
unset); the decoded response's own top-level fields are never read — two
decoded values sharing the same route map give the same result. -/
theorem quote_reads_only_request_and_routes (request : QuoteRequest)
    (quotes quotesAlt : SwapQuotes) (h : quotes.quotes = quotesAlt.quotes) :
    quote request quotes = quote request quotesAlt ∧
    (∀ resp, quote request quotes = Except.ok resp →
      resp.input_mint = request.input_mint ∧
      resp.output_mint = request.output_mint ∧
      resp.in_amount = request.amount ∧
      resp.swap_mode = request.swap_mode.getD SwapMode.ExactIn ∧
      (request.swap_mode = none → resp.swap_mode = SwapMode.ExactIn)) := by
  constructor
  · unfold quote
    rw [h]
  · intro resp hresp
    unfold quote at hresp
    cases hq : quotes.quotes with
    | nil =>
      rw [hq] at hresp
      exact absurd hresp (by simp)
    | cons p rest =>
      obtain ⟨k, route⟩ := p
      rw [hq] at hresp
      injection hresp with h2
      subst h2
      exact ⟨rfl, rfl, rfl, rfl, fun hm => by simp [hm]⟩

/-- Witness for C10: the same route map under different decoded top-level
fields gives an identical result, taking its fields from the request. -/
theorem quote_reads_only_request_and_routes_witness :
    sampleQuotes.quotes = sampleQuotesAltTop.quotes ∧
    (quote sampleRequest sampleQuotes = quote sampleRequest sampleQuotesAltTop ∧
    (∀ resp, quote sampleRequest sampleQuotes = Except.ok resp →
      resp.input_mint = sampleRequest.input_mint ∧
      resp.output_mint = sampleRequest.output_mint ∧
      resp.in_amount = sampleRequest.amount ∧
      resp.swap_mode = sampleRequest.swap_mode.getD SwapMode.ExactIn ∧
      (sampleRequest.swap_mode = none → resp.swap_mode = SwapMode.ExactIn))) :=
  ⟨rfl, quote_reads_only_request_and_routes sampleRequest sampleQuotes
    sampleQuotesAltTop rfl⟩

/-- Claim C1: on a retained raw route with at least one instruction, `swap`
returns a `SwapResponse` whose instruction list matches the raw route's
instruction list in length and order — each output instruction resolving
the program from the record's 32-byte field, preserving account length,
order and signer/writable flags (addresses resolved from 32-byte form) and
copying the data bytes verbatim — and whose lookup-table address list is
the element-wise resolution of the raw route's 32-byte entries. -/
theorem swap_resolves_route_faithfully (q : QuoteResponse)
    (h : q.raw_route.instructions ≠ []) :
    ∃ resp, swap q = Except.ok resp ∧
      resp.instructions.length = q.raw_route.instructions.length ∧
      (∀ i, i < q.raw_route.instructions.length →
        ∃ src out, q.raw_route.instructions[i]? = some src ∧
          resp.instructions[i]? = some out ∧
          out.program_id = pubkey_from_bytes src.p ∧
          out.data = src.d ∧
          out.accounts.length = src.a.length ∧
          (∀ j, j < src.a.length →
            ∃ entry acct, src.a[j]? = some entry ∧
              out.accounts[j]? = some acct ∧
              acct.pubkey = pubkey_from_bytes entry.p ∧
              acct.is_signer = entry.s ∧ acct.is_writable = entry.w)) ∧
      resp.address_lookup_table_addresses.length =
        q.raw_route.address_lookup_tables.length ∧
      (∀ t, t < q.raw_route.address_lookup_tables.length →
        ∃ bytes, q.raw_route.address_lookup_tables[t]? = some bytes ∧
          resp.address_lookup_table_addresses[t]? =
            some (pubkey_from_bytes bytes)) := by
  have hne : q.raw_route.instructions.isEmpty = false := by
    cases hi : q.raw_route.instructions with
    | nil => exact absurd hi h
    | cons a l => rfl
  refine ⟨_, swap_ok_eq q hne, ?_, ?_, ?_, ?_⟩
  · exact List.length_map _ _
  · intro i hi
    obtain ⟨src, hsrc⟩ : ∃ src, q.raw_route.instructions[i]? = some src :=
      ⟨_, List.getElem?_eq_getElem hi⟩
    refine ⟨src,
      { program_id := pubkey_from_bytes src.p
        accounts := src.a.map (fun meta =>
          { pubkey := pubkey_from_bytes meta.p
            is_signer := meta.s
            is_writable := meta.w })
        data := src.d },
      hsrc, ?_, rfl, rfl, List.length_map _ _, ?_⟩
    · dsimp only
      rw [List.getElem?_map, hsrc]
      rfl
    · intro j hj
      obtain ⟨entry, hentry⟩ : ∃ entry, src.a[j]? = some entry :=
        ⟨_, List.getElem?_eq_getElem hj⟩
      refine ⟨entry,
        { pubkey := pubkey_from_bytes entry.p
          is_signer := entry.s
          is_writable := entry.w },
        hentry, ?_, rfl, rfl, rfl⟩
      dsimp only
      rw [List.getElem?_map, hentry]
      rfl
  · exact List.length_map _ _
  · intro t ht
    obtain ⟨bytes, hb⟩ : ∃ bytes, q.raw_route.address_lookup_tables[t]? = some bytes :=
      ⟨_, List.getElem?_eq_getElem ht⟩
    refine ⟨bytes, hb, ?_⟩
    dsimp only
    rw [List.getElem?_map, hb]
    rfl

/-- Witness for C1: the sample quote's single instruction and single
lookup table are resolved faithfully. -/
theorem swap_resolves_route_faithfully_witness :
    sampleQuoteResponse.raw_route.instructions ≠ [] ∧
    (∃ resp, swap sampleQuoteResponse = Except.ok resp ∧
      resp.instructions.length =
        sampleQuoteResponse.raw_route.instructions.length ∧
      (∀ i, i < sampleQuoteResponse.raw_route.instructions.length →
        ∃ src out, sampleQuoteResponse.raw_route.instructions[i]? = some src ∧
          resp.instructions[i]? = some out ∧
          out.program_id = pubkey_from_bytes src.p ∧
          out.data = src.d ∧
          out.accounts.length = src.a.length ∧
          (∀ j, j < src.a.length →
            ∃ entry acct, src.a[j]? = some entry ∧
              out.accounts[j]? = some acct ∧
              acct.pubkey = pubkey_from_bytes entry.p ∧
              acct.is_signer = entry.s ∧ acct.is_writable = entry.w)) ∧
      resp.address_lookup_table_addresses.length =
        sampleQuoteResponse.raw_route.address_lookup_tables.length ∧
      (∀ t, t < sampleQuoteResponse.raw_route.address_lookup_tables.length →
        ∃ bytes,
          sampleQuoteResponse.raw_route.address_lookup_tables[t]? = some bytes ∧
          resp.address_lookup_table_addresses[t]? =
            some (pubkey_from_bytes bytes))) :=
  ⟨by decide, swap_resolves_route_faithfully sampleQuoteResponse (by decide)⟩

/-- Claim C5: every transcoded route-plan entry has `percent = 100`
regardless of the step's allocation fraction (the fraction itself is
preserved), fee address defaulting to the zero address and fee amount to 0
when absent, and context slot taken from the step when present, else from
the route-level slot, else 0; `quote` builds its route plan exactly this
way from the selected route. -/
theorem transform_step_defaults (step : RoutePlanStepData)
    (routeSlot : Option Nat) :
    (transform_step step (routeSlot.getD 0)).percent = 100 ∧
    (transform_step step (routeSlot.getD 0)).swap_info.alloc_ppb =
      step.alloc_ppb ∧
    (step.fee_mint = none →
      (transform_step step (routeSlot.getD 0)).swap_info.fee_mint =
        Pubkey.zero) ∧
    (step.fee_amount = none →
      (transform_step step (routeSlot.getD 0)).swap_info.fee_amount = 0) ∧
    (∀ cs, step.context_slot = some cs →
      (transform_step step (routeSlot.getD 0)).swap_info.context_slot = cs) ∧
    (step.context_slot = none → ∀ rs, routeSlot = some rs →
      (transform_step step (routeSlot.getD 0)).swap_info.context_slot = rs) ∧
    (step.context_slot = none → routeSlot = none →
      (transform_step step (routeSlot.getD 0)).swap_info.context_slot = 0) ∧
    (∀ request quotes key route rest resp,
      quotes.quotes = (key, route) :: rest →
      quote request quotes = Except.ok resp →
      resp.route_plan = route.steps.map
        (fun s => transform_step s (route.context_slot.getD 0))) := by
  refine ⟨rfl, rfl, ?_, ?_, ?_, ?_, ?_, ?_⟩
  · intro hf
    simp [transform_step, hf]
  · intro hf
    simp [transform_step, hf]
  · intro cs hcs
    simp [transform_step, hcs]
  · intro hcs rs hrs
    simp [transform_step, hcs, hrs]
  · intro hcs hrs
    simp [transform_step, hcs, hrs]
  · intro request quotes key route rest resp hq hok
    unfold quote at hok
    rw [hq] at hok
    injection hok with h2
    subst h2
    rfl

/-- Witness for C5 at the sample step (no fee, no step context slot) and a
route-level slot of 7. -/
theorem transform_step_defaults_witness :
    (transform_step sampleStep ((some 7 : Option Nat).getD 0)).percent = 100 ∧
    (transform_step sampleStep ((some 7 : Option Nat).getD 0)).swap_info.alloc_ppb =
      sampleStep.alloc_ppb ∧
    (sampleStep.fee_mint = none →
      (transform_step sampleStep ((some 7 : Option Nat).getD 0)).swap_info.fee_mint =
        Pubkey.zero) ∧
    (sampleStep.fee_amount = none →
      (transform_step sampleStep ((some 7 : Option Nat).getD 0)).swap_info.fee_amount = 0) ∧
    (∀ cs, sampleStep.context_slot = some cs →
      (transform_step sampleStep ((some 7 : Option Nat).getD 0)).swap_info.context_slot = cs) ∧
    (sampleStep.context_slot = none → ∀ rs, (some 7 : Option Nat) = some rs →
      (transform_step sampleStep ((some 7 : Option Nat).getD 0)).swap_info.context_slot = rs) ∧
    (sampleStep.context_slot = none → (some 7 : Option Nat) = none →
      (transform_step sampleStep ((some 7 : Option Nat).getD 0)).swap_info.context_slot = 0) ∧
    (∀ request quotes key route rest resp,
      quotes.quotes = (key, route) :: rest →
      quote request quotes = Except.ok resp →
      resp.route_plan = route.steps.map
        (fun s => transform_step s (route.context_slot.getD 0))) :=
  transform_step_defaults sampleStep (some 7)

/-- Counterexample to C6 as stated: with a compute-unit estimate of
exactly `2 ^ 32` and a non-empty instruction list, `swap` succeeds and its
`compute_unit_limit` is 0, not the estimate — the `as u32` narrowing
silently wrapped. -/
theorem swap_compute_unit_wrap_counterexample :
    overflowQuoteResponse.raw_route.compute_units = some 4294967296 ∧
    ∃ resp, swap overflowQuoteResponse = Except.ok resp ∧
      resp.compute_unit_limit = 0 ∧ resp.compute_unit_limit ≠ 4294967296 := by
  refine ⟨rfl, _, swap_ok_eq overflowQuoteResponse rfl, ?_, ?_⟩
  · decide
  · decide

/-- Claim C6 (amended): the `SwapResponse`'s compute-unit limit is the
route's compute-unit estimate reduced modulo `2 ^ 32` when present (hence
equal to the estimate exactly when the estimate is below `2 ^ 32`) and 0
when absent; the `as u32` narrowing silently wraps on overflow. -/
theorem swap_compute_unit_limit_mod (q : QuoteResponse)
    (h : q.raw_route.instructions ≠ []) :
    ∃ resp, swap q = Except.ok resp ∧
      resp.compute_unit_limit = q.raw_route.compute_units.getD 0 % 2 ^ 32 ∧
      (q.raw_route.compute_units = none → resp.compute_unit_limit = 0) ∧
      (∀ cu, q.raw_route.compute_units = some cu → cu < 2 ^ 32 →
        resp.compute_unit_limit = cu) := by
  have hne : q.raw_route.instructions.isEmpty = false := by
    cases hi : q.raw_route.instructions with
    | nil => exact absurd hi h
    | cons a l => rfl
  refine ⟨_, swap_ok_eq q hne, rfl, ?_, ?_⟩
  · intro hcu
    simp [hcu]
  · intro cu hcu hlt
    dsimp only
    rw [hcu]
    exact Nat.mod_eq_of_lt hlt

/-- Witness for C6 (amended): the sample route's estimate 200000 is below
`2 ^ 32` and is passed through unwrapped. -/
theorem swap_compute_unit_limit_mod_witness :
    sampleQuoteResponse.raw_route.instructions ≠ [] ∧
    (∃ resp, swap sampleQuoteResponse = Except.ok resp ∧
      resp.compute_unit_limit =
        sampleQuoteResponse.raw_route.compute_units.getD 0 % 2 ^ 32 ∧
      (sampleQuoteResponse.raw_route.compute_units = none →
        resp.compute_unit_limit = 0) ∧
      (∀ cu, sampleQuoteResponse.raw_route.compute_units = some cu →
        cu < 2 ^ 32 → resp.compute_unit_limit = cu)) :=
  ⟨by decide, swap_compute_unit_limit_mod sampleQuoteResponse (by decide)⟩

/-- Claim C4: the façade classifies every transport response — 2xx passes
through for decoding, a 404 whose body contains "No routes" yields
`NoRoutesAvailable`, and every other non-2xx yields `RequestFailed`
carrying the status code and the body text verbatim. -/
theorem check_response_classification (r : HttpResponse) :
    (statusIsSuccess r.status = true → check_response r = Except.ok r) ∧
    (statusIsSuccess r.status = false → r.status = 404 →
      strContains r.body "No routes" = true →
      check_response r = Except.error ClientError.NoRoutesAvailable) ∧
    (statusIsSuccess r.status = false →
      (r.status = 404 → strContains r.body "No routes" = false) →
      check_response r =
        Except.error (ClientError.RequestFailed r.status r.body)) := by
  refine ⟨?_, ?_, ?_⟩
  · intro hs
    unfold check_response
    simp [hs]
  · intro hs h404 hbody
    unfold check_response
    rw [hs]
    simp [h404, hbody]
  · intro hs hnot
    unfold check_response
    rw [hs]
    by_cases h404 : r.status = 404
    · simp [h404, hnot h404]
    · have hb : (r.status == 404) = false := by
        simp [h404]
      simp [hb]

/-- Witness for C4: a 404 with a body containing "No routes" is classified
as `NoRoutesAvailable`. -/
theorem check_response_classification_witness :
    check_response ⟨404, "Not found: No routes for pair"⟩ =
      Except.error ClientError.NoRoutesAvailable :=
  (check_response_classification ⟨404, "Not found: No routes for pair"⟩).2.1
    (by decide) (by decide) (by decide)

set_option maxHeartbeats 3200000 in
/-- Claim C7: the request encoder always emits the four required
parameters first, in a stable order, followed by the optional parameters
in the documented order and only when present (slippage only when positive),
under exactly the documented key names, with `swapMode` rendered as
"ExactIn" or "ExactOut" and numeric values in decimal. -/
theorem build_query_params_layout (request : QuoteRequest) :
    build_query_params request =
      [("inputMint", pubkeyToString request.input_mint),
       ("outputMint", pubkeyToString request.output_mint),
       ("amount", toString request.amount),
       ("userPublicKey", pubkeyToString request.user_pubkey)] ++
      (match request.max_accounts with
        | some v => [("accountsLimitTotal", toString v)]
        | none => []) ++
      (match request.swap_mode with
        | some SwapMode.ExactIn => [("swapMode", "ExactIn")]
        | some SwapMode.ExactOut => [("swapMode", "ExactOut")]
        | none => []) ++
      (if request.slippage_bps > 0 then
        [("slippageBps", toString request.slippage_bps)]
      else []) ++
      (match request.only_direct_routes with
        | some b => [("onlyDirectRoutes", toString b)]
        | none => []) ++
      (match request.excluded_dexes with
        | some d => [("excludeDexes", d)]
        | none => []) ++
      (match request.size_constraints with
        | some v => [("sizeConstraint", toString v)]
        | none => []) ++
      (match request.accounts_limit_writable with
        | some v => [("accountsLimitWritable", toString v)]
        | none => []) ++
      (match request.providers with
        | some p => [("providers", p)]
        | none => []) := by
  obtain ⟨im, om, am, up, ma, sm, sb, od, ed, sc, aw, pr⟩ := request
  rcases ma with _ | ma <;>
  rcases sm with _ | (_ | _) <;>
  rcases od with _ | od <;>
  rcases ed with _ | ed <;>
  rcases sc with _ | sc <;>
  rcases aw with _ | aw <;>
  rcases pr with _ | pr <;>
  rcases Nat.eq_zero_or_pos sb with hsb | hsb <;>
  simp [build_query_params, swapModeToString, hsb]

/-- Claim C8: rendering a `SwapMode` to its token and parsing it back is
the identity, and parsing any string other than "ExactIn" or "ExactOut"
fails. -/
theorem swap_mode_roundtrip :
    (∀ m : SwapMode, SwapMode.fromStr (swapModeToString m) = Except.ok m) ∧
    SwapMode.fromStr "ExactIn" = Except.ok SwapMode.ExactIn ∧
    SwapMode.fromStr "ExactOut" = Except.ok SwapMode.ExactOut ∧
    (∀ s, s ≠ "ExactIn" → s ≠ "ExactOut" →
      ∀ m : SwapMode, SwapMode.fromStr s ≠ Except.ok m) := by
  refine ⟨?_, ?_, ?_, ?_⟩
  · intro m
    cases m <;> simp [SwapMode.fromStr, swapModeToString]
  · simp [SwapMode.fromStr]
  · simp [SwapMode.fromStr]
  · intro s h1 h2 m
    unfold SwapMode.fromStr
    rw [if_neg h1, if_neg h2]
    simp

/-- Witness for C8: the round-trip at `ExactIn`. -/
theorem swap_mode_roundtrip_witness :
    SwapMode.fromStr (swapModeToString SwapMode.ExactIn) =
      Except.ok SwapMode.ExactIn :=
  swap_mode_roundtrip.1 SwapMode.ExactIn

end Titan
